import Mathlib

/-
Shallow embedding of the Soroban attendance contract
(src/contracts/ambassador-contract/src/lib.rs).

Addresses and 32-byte hashes are modelled as opaque wrappers around Nat
with decidable equality; Soroban `String` nicknames are byte lists, so
`List.length` matches the source's `String::len` byte count.

The contract storage (instance slot `Admin`, persistent slots
`ActiveHash`, `Presence(hash, user)`, `UserProfile(user)`) is a record of
option fields and association lists.  Each contract entry point is a pure
function from an environment (the set of identities whose `require_auth`
proof verifies, plus the ledger sequence number) and a pre-state to an
outcome, a post-state, and a trace of the host-interface actions it
performed, in program order: authorization checks, storage reads and
writes, TTL extension requests with their (threshold, bump) arguments, and
event publications.  `require_auth` failure aborts the invocation, which
the outcome type records as `authFail`.
-/

namespace AttendanceContract

/-- A Soroban `Address`, opaque with decidable equality. -/
structure Addr where
  ident : Nat
deriving DecidableEq

/-- A `BytesN<32>` session hash, opaque with decidable equality. -/
structure Hash where
  val : Nat
deriving DecidableEq

/-- The contract's error enum (`contracterror` in the source). -/
inductive Error where
  | AlreadyInitialized
  | NotInitialized
  | NoActiveSession
  | IncorrectHash
  | AlreadyRegistered
  | InvalidNickname
deriving DecidableEq

/-- A user profile: nickname bytes and the ledger sequence at last write. -/
structure UserProfile where
  nickname : List Nat
  registered_at : Nat
deriving DecidableEq

/-- The storage key enum of the source. -/
inductive StorageKey where
  | Admin
  | ActiveHash
  | Presence (session : Hash) (user : Addr)
  | UserProfile (user : Addr)
deriving DecidableEq

/-- The events the contract publishes. -/
inductive Event where
  | init (admin : Addr)
  | new_sess (hash : Hash)
  | present (user : Addr) (session : Hash) (nickname : List Nat)
  | adm_xfer (old_admin new_admin : Addr)
  | profile (user : Addr) (nickname : List Nat)
deriving DecidableEq

/-- Host-interface actions, recorded in program order. -/
inductive Action where
  | auth (who : Addr)
  | readKey (key : StorageKey)
  | writeKey (key : StorageKey)
  | extendTtl (key : StorageKey) (threshold bump : Nat)
  | extendInstanceTtl (threshold bump : Nat)
  | emit (e : Event)
deriving DecidableEq

/-- Association-list lookup, modelling keyed storage `get`. -/
def assocGet {α β : Type} [DecidableEq α] : List (α × β) → α → Option β
  | [], _ => none
  | (k, v) :: rest, key => if k = key then some v else assocGet rest key

/-- Association-list overwrite, modelling keyed storage `set`. -/
def assocSet {α β : Type} [DecidableEq α] : List (α × β) → α → β → List (α × β)
  | [], key, v => [(key, v)]
  | (k, w) :: rest, key, v =>
      if k = key then (key, v) :: rest else (k, w) :: assocSet rest key v

/-- The contract's stored state. -/
structure ContractState where
  admin : Option Addr
  activeHash : Option Hash
  presence : List ((Hash × Addr) × Bool)
  profiles : List (Addr × UserProfile)
deriving DecidableEq

/-- Host environment: which identities have a valid authorization proof,
and the current ledger sequence number. -/
structure Env where
  auths : List Addr
  ledgerSeq : Nat
deriving DecidableEq

/-- Outcome of an invocation: success, a contract error, or an abort
caused by a failed `require_auth` proof for the given identity. -/
inductive Outcome (α : Type) where
  | ok (a : α)
  | err (e : Error)
  | authFail (who : Addr)
deriving DecidableEq

/-- TTL threshold: about 7 days of ledgers. -/
def TTL_THRESHOLD : Nat := 120960

/-- TTL bump for instance data and sessions: about 30 days. -/
def TTL_BUMP_30D : Nat := 518400

/-- TTL bump for user profiles: about 90 days. -/
def TTL_BUMP_90D : Nat := 1555200

/-- `initialize(env, admin)`: fails `AlreadyInitialized` when an admin is
stored (the `has` check runs before `require_auth`); otherwise requires
`admin`'s proof, stores the admin, extends the instance TTL and publishes
the `init` event. -/
def initContract (env : Env) (admin : Addr) (st : ContractState) :
    Outcome Unit × ContractState × List Action :=
  if st.admin.isSome then
    (Outcome.err Error.AlreadyInitialized, st, [Action.readKey StorageKey.Admin])
  else if admin ∈ env.auths then
    (Outcome.ok (), { st with admin := some admin },
     [Action.readKey StorageKey.Admin, Action.auth admin,
      Action.writeKey StorageKey.Admin,
      Action.extendInstanceTtl TTL_THRESHOLD TTL_BUMP_30D,
      Action.emit (Event.init admin)])
  else
    (Outcome.authFail admin, st, [Action.readKey StorageKey.Admin, Action.auth admin])

/-- `set_hash(env, new_hash)`: loads the admin (else `NotInitialized`),
requires the admin's proof, overwrites the active hash, extends its TTL
and publishes `new_sess`. -/
def set_hash (env : Env) (new_hash : Hash) (st : ContractState) :
    Outcome Unit × ContractState × List Action :=
  match st.admin with
  | none => (Outcome.err Error.NotInitialized, st, [Action.readKey StorageKey.Admin])
  | some admin =>
    if admin ∈ env.auths then
      (Outcome.ok (), { st with activeHash := some new_hash },
       [Action.readKey StorageKey.Admin, Action.auth admin,
        Action.writeKey StorageKey.ActiveHash,
        Action.extendTtl StorageKey.ActiveHash TTL_THRESHOLD TTL_BUMP_30D,
        Action.emit (Event.new_sess new_hash)])
    else
      (Outcome.authFail admin, st, [Action.readKey StorageKey.Admin, Action.auth admin])

/-- `register(env, user, submitted_hash)`: requires `user`'s proof first,
loads the active hash (else `NoActiveSession`), extends the active-hash
TTL, then compares hashes (`IncorrectHash` on mismatch), then checks the
presence key (`AlreadyRegistered` when present), then writes the flag,
extends its TTL, reads the profile for the event nickname (extending its
TTL when found) and publishes `present`. -/
def register (env : Env) (user : Addr) (submitted_hash : Hash) (st : ContractState) :
    Outcome Unit × ContractState × List Action :=
  if user ∈ env.auths then
    match st.activeHash with
    | none =>
      (Outcome.err Error.NoActiveSession, st,
       [Action.auth user, Action.readKey StorageKey.ActiveHash])
    | some stored_hash =>
      if submitted_hash ≠ stored_hash then
        (Outcome.err Error.IncorrectHash, st,
         [Action.auth user, Action.readKey StorageKey.ActiveHash,
          Action.extendTtl StorageKey.ActiveHash TTL_THRESHOLD TTL_BUMP_30D])
      else if (assocGet st.presence (stored_hash, user)).isSome then
        (Outcome.err Error.AlreadyRegistered, st,
         [Action.auth user, Action.readKey StorageKey.ActiveHash,
          Action.extendTtl StorageKey.ActiveHash TTL_THRESHOLD TTL_BUMP_30D,
          Action.readKey (StorageKey.Presence stored_hash user)])
      else
        let st1 := { st with presence := assocSet st.presence (stored_hash, user) true }
        let tr :=
          [Action.auth user, Action.readKey StorageKey.ActiveHash,
           Action.extendTtl StorageKey.ActiveHash TTL_THRESHOLD TTL_BUMP_30D,
           Action.readKey (StorageKey.Presence stored_hash user),
           Action.writeKey (StorageKey.Presence stored_hash user),
           Action.extendTtl (StorageKey.Presence stored_hash user) TTL_THRESHOLD TTL_BUMP_30D,
           Action.readKey (StorageKey.UserProfile user)]
        match assocGet st.profiles user with
        | some profile =>
          (Outcome.ok (), st1, tr ++
           [Action.extendTtl (StorageKey.UserProfile user) TTL_THRESHOLD TTL_BUMP_90D,
            Action.emit (Event.present user stored_hash profile.nickname)])
        | none =>
          (Outcome.ok (), st1, tr ++ [Action.emit (Event.present user stored_hash [])])
  else
    (Outcome.authFail user, st, [Action.auth user])

/-- `transfer_admin(env, new_admin)`: loads the admin (else
`NotInitialized`), requires proofs from the current admin and then from
the new admin, overwrites the admin, extends the instance TTL and
publishes `adm_xfer`. -/
def transfer_admin (env : Env) (new_admin : Addr) (st : ContractState) :
    Outcome Unit × ContractState × List Action :=
  match st.admin with
  | none => (Outcome.err Error.NotInitialized, st, [Action.readKey StorageKey.Admin])
  | some current_admin =>
    if current_admin ∈ env.auths then
      if new_admin ∈ env.auths then
        (Outcome.ok (), { st with admin := some new_admin },
         [Action.readKey StorageKey.Admin, Action.auth current_admin,
          Action.auth new_admin, Action.writeKey StorageKey.Admin,
          Action.extendInstanceTtl TTL_THRESHOLD TTL_BUMP_30D,
          Action.emit (Event.adm_xfer current_admin new_admin)])
      else
        (Outcome.authFail new_admin, st,
         [Action.readKey StorageKey.Admin, Action.auth current_admin,
          Action.auth new_admin])
    else
      (Outcome.authFail current_admin, st,
       [Action.readKey StorageKey.Admin, Action.auth current_admin])

/-- `set_profile(env, user, nickname)`: requires `user`'s proof first,
validates `3 <= nickname.len() <= 32` (else `InvalidNickname`), then
fully overwrites the profile with the nickname and the current ledger
sequence, extends the profile TTL with the 90-day bump and publishes
`profile`. -/
def set_profile (env : Env) (user : Addr) (nickname : List Nat) (st : ContractState) :
    Outcome Unit × ContractState × List Action :=
  if user ∈ env.auths then
    if nickname.length < 3 ∨ nickname.length > 32 then
      (Outcome.err Error.InvalidNickname, st, [Action.auth user])
    else
      (Outcome.ok (),
       { st with profiles := assocSet st.profiles user ⟨nickname, env.ledgerSeq⟩ },
       [Action.auth user, Action.writeKey (StorageKey.UserProfile user),
        Action.extendTtl (StorageKey.UserProfile user) TTL_THRESHOLD TTL_BUMP_90D,
        Action.emit (Event.profile user nickname)])
  else
    (Outcome.authFail user, st, [Action.auth user])

/-- `get_profile(user)`: read-only; extends the profile TTL on a hit. -/
def get_profile (st : ContractState) (user : Addr) : Option UserProfile × List Action :=
  match assocGet st.profiles user with
  | some profile =>
    (some profile,
     [Action.readKey (StorageKey.UserProfile user),
      Action.extendTtl (StorageKey.UserProfile user) TTL_THRESHOLD TTL_BUMP_90D])
  | none => (none, [Action.readKey (StorageKey.UserProfile user)])

/-- `check_presence(user)`: returns `false` when no active session;
otherwise extends the active-hash TTL, looks the flag up defaulting to
`false`, and extends the presence TTL only when the flag is `true`. -/
def check_presence (st : ContractState) (user : Addr) : Bool × List Action :=
  match st.activeHash with
  | none => (false, [Action.readKey StorageKey.ActiveHash])
  | some current_hash =>
    let is_present := (assocGet st.presence (current_hash, user)).getD false
    (is_present,
     [Action.readKey StorageKey.ActiveHash,
      Action.extendTtl StorageKey.ActiveHash TTL_THRESHOLD TTL_BUMP_30D,
      Action.readKey (StorageKey.Presence current_hash user)] ++
     (if is_present then
        [Action.extendTtl (StorageKey.Presence current_hash user) TTL_THRESHOLD TTL_BUMP_30D]
      else []))

/-- `get_admin()`: extends the instance TTL, then reads the admin. -/
def get_admin (st : ContractState) : Outcome Addr × List Action :=
  match st.admin with
  | some admin =>
    (Outcome.ok admin,
     [Action.extendInstanceTtl TTL_THRESHOLD TTL_BUMP_30D, Action.readKey StorageKey.Admin])
  | none =>
    (Outcome.err Error.NotInitialized,
     [Action.extendInstanceTtl TTL_THRESHOLD TTL_BUMP_30D, Action.readKey StorageKey.Admin])

/-- `get_session()`: reads the active hash, extending its TTL on a hit. -/
def get_session (st : ContractState) : Option Hash × List Action :=
  match st.activeHash with
  | some hash =>
    (some hash,
     [Action.readKey StorageKey.ActiveHash,
      Action.extendTtl StorageKey.ActiveHash TTL_THRESHOLD TTL_BUMP_30D])
  | none => (none, [Action.readKey StorageKey.ActiveHash])

/-- The loop body of `check_batch`: for each user in order, look the flag
up under the given hash (default `false`), extend the presence TTL only
when `true`, and append the flag to the results. -/
def check_batch_loop (st : ContractState) (current_hash : Hash) :
    List Addr → List Bool × List Action
  | [] => ([], [])
  | user :: rest =>
    let is_present := (assocGet st.presence (current_hash, user)).getD false
    let tr :=
      [Action.readKey (StorageKey.Presence current_hash user)] ++
      (if is_present then
         [Action.extendTtl (StorageKey.Presence current_hash user) TTL_THRESHOLD TTL_BUMP_30D]
       else [])
    let acc := check_batch_loop st current_hash rest
    (is_present :: acc.1, tr ++ acc.2)

/-- `check_batch(users)`: calls `get_session`; on `none` returns the empty
vector, otherwise runs the loop over the users in order. -/
def check_batch (st : ContractState) (users : List Addr) : List Bool × List Action :=
  match get_session st with
  | (none, tr) => ([], tr)
  | (some current_hash, tr) =>
    let acc := check_batch_loop st current_hash users
    (acc.1, tr ++ acc.2)

/-- A TTL-extension action is well-formed when it carries the fixed
threshold, the 90-day bump on user-profile keys, and the 30-day bump on
every other key and on the instance; all other actions are unconstrained. -/
def ttlOk : Action → Bool
  | Action.extendTtl key thr bump =>
      decide (thr = TTL_THRESHOLD) &&
      (match key with
       | StorageKey.UserProfile _ => decide (bump = TTL_BUMP_90D)
       | _ => decide (bump = TTL_BUMP_30D))
  | Action.extendInstanceTtl thr bump =>
      decide (thr = TTL_THRESHOLD) && decide (bump = TTL_BUMP_30D)
  | _ => true

/-- No storage write occurs in the trace before the first `auth` check. -/
def noWriteBeforeAuth : List Action → Bool
  | [] => true
  | Action.auth _ :: _ => true
  | Action.writeKey _ :: _ => false
  | _ :: rest => noWriteBeforeAuth rest

/-- The very first action of the trace is an `auth` check. -/
def authIsFirst : List Action → Bool
  | Action.auth _ :: _ => true
  | _ => false

/-- Looking a key up right after overwriting it yields the new value. -/
theorem assocGet_assocSet_self {α β : Type} [DecidableEq α]
    (l : List (α × β)) (key : α) (v : β) :
    assocGet (assocSet l key v) key = some v := by
  induction l with
  | nil => simp [assocGet, assocSet]
  | cons p rest ih =>
    obtain ⟨k, w⟩ := p
    by_cases h : k = key
    · simp [assocSet, assocGet, h]
    · simp [assocSet, assocGet, h, ih]

/-- Overwriting one key leaves every other key's value unchanged. -/
theorem assocGet_assocSet_ne {α β : Type} [DecidableEq α]
    (l : List (α × β)) (key key' : α) (v : β) (h : key ≠ key') :
    assocGet (assocSet l key v) key' = assocGet l key' := by
  induction l with
  | nil => simp [assocGet, assocSet, h]
  | cons p rest ih =>
    obtain ⟨k, w⟩ := p
    by_cases hk : k = key
    · subst hk
      simp [assocSet, assocGet, h]
    · simp [assocSet, assocGet, hk, ih]

/-- C1: a `register` call with a valid proof, an active session, and a
submitted hash different from the stored one fails with `IncorrectHash`,
leaves the state unchanged (no presence record written), and its trace is
exactly the auth check, the active-hash read, and the active-hash TTL
extension request with the standard threshold and 30-day horizon — the
extension is issued before the comparison rejects the call. -/
theorem C1_register_mismatch_renews_ttl
    (env : Env) (user : Addr) (submitted_hash stored : Hash) (st : ContractState)
    (hauth : user ∈ env.auths) (hact : st.activeHash = some stored)
    (hne : submitted_hash ≠ stored) :
    register env user submitted_hash st =
      (Outcome.err Error.IncorrectHash, st,
       [Action.auth user, Action.readKey StorageKey.ActiveHash,
        Action.extendTtl StorageKey.ActiveHash TTL_THRESHOLD TTL_BUMP_30D]) := by
  simp [register, hauth, hact, hne]

/-- Witness for C1 at a concrete environment and state. -/
theorem C1_register_mismatch_renews_ttl_witness :
    Addr.mk 1 ∈ (Env.mk [Addr.mk 1] 0).auths ∧
    (ContractState.mk none (some (Hash.mk 7)) [] []).activeHash = some (Hash.mk 7) ∧
    Hash.mk 5 ≠ Hash.mk 7 ∧
    register (Env.mk [Addr.mk 1] 0) (Addr.mk 1) (Hash.mk 5)
        (ContractState.mk none (some (Hash.mk 7)) [] []) =
      (Outcome.err Error.IncorrectHash,
       ContractState.mk none (some (Hash.mk 7)) [] [],
       [Action.auth (Addr.mk 1), Action.readKey StorageKey.ActiveHash,
        Action.extendTtl StorageKey.ActiveHash TTL_THRESHOLD TTL_BUMP_30D]) :=
  ⟨by decide, by decide, by decide,
   C1_register_mismatch_renews_ttl _ _ _ (Hash.mk 7) _
     (by decide) (by decide) (by decide)⟩

/-- C10: in `register` the hash comparison precedes the already-registered
check: a user who already holds a presence record under the stored hash
but submits a non-matching hash gets `IncorrectHash`, not
`AlreadyRegistered`. -/
theorem C10_mismatch_checked_before_already_registered
    (env : Env) (user : Addr) (submitted_hash stored : Hash) (st : ContractState)
    (hauth : user ∈ env.auths) (hact : st.activeHash = some stored)
    (hpres : assocGet st.presence (stored, user) = some true)
    (hne : submitted_hash ≠ stored) :
    (register env user submitted_hash st).1 = Outcome.err Error.IncorrectHash := by
  simp [register, hauth, hact, hne]

/-- Witness for C10 at a concrete state holding a presence record. -/
theorem C10_mismatch_checked_before_already_registered_witness :
    Addr.mk 1 ∈ (Env.mk [Addr.mk 1] 0).auths ∧
    (ContractState.mk none (some (Hash.mk 7))
        [((Hash.mk 7, Addr.mk 1), true)] []).activeHash = some (Hash.mk 7) ∧
    assocGet (ContractState.mk none (some (Hash.mk 7))
        [((Hash.mk 7, Addr.mk 1), true)] []).presence
      (Hash.mk 7, Addr.mk 1) = some true ∧
    Hash.mk 5 ≠ Hash.mk 7 ∧
    (register (Env.mk [Addr.mk 1] 0) (Addr.mk 1) (Hash.mk 5)
        (ContractState.mk none (some (Hash.mk 7))
          [((Hash.mk 7, Addr.mk 1), true)] [])).1 =
      Outcome.err Error.IncorrectHash :=
  ⟨by decide, by decide, by decide, by decide,
   C10_mismatch_checked_before_already_registered _ _ _ (Hash.mk 7) _
     (by decide) (by decide) (by decide) (by decide)⟩

/-- C4: when an admin is already stored, `initialize` fails with
`AlreadyInitialized` and returns the state unchanged; in particular after
a successful first `initialize` a second call fails and the state after
the failed call equals the state after the first. -/
theorem C4_second_init_rejected :
    (∀ (env : Env) (a : Addr) (st : ContractState) (x : Addr), st.admin = some x →
      initContract env a st =
        (Outcome.err Error.AlreadyInitialized, st, [Action.readKey StorageKey.Admin])) ∧
    (∀ (env1 env2 : Env) (a1 a2 : Addr) (st0 : ContractState),
      st0.admin = none → a1 ∈ env1.auths →
      (initContract env2 a2 (initContract env1 a1 st0).2.1).1 =
        Outcome.err Error.AlreadyInitialized ∧
      (initContract env2 a2 (initContract env1 a1 st0).2.1).2.1 =
        (initContract env1 a1 st0).2.1) := by
  constructor
  · intro env a st x hx
    simp [initContract, hx]
  · intro env1 env2 a1 a2 st0 h0 h1
    have hfirst : (initContract env1 a1 st0).2.1 = { st0 with admin := some a1 } := by
      simp [initContract, h0, h1]
    rw [hfirst]
    simp [initContract]

/-- Witness for C4: a concrete double initialization. -/
theorem C4_second_init_rejected_witness :
    (ContractState.mk none none [] []).admin = none ∧
    Addr.mk 1 ∈ (Env.mk [Addr.mk 1] 0).auths ∧
    ((initContract (Env.mk [Addr.mk 2] 0) (Addr.mk 2)
        (initContract (Env.mk [Addr.mk 1] 0) (Addr.mk 1)
          (ContractState.mk none none [] [])).2.1).1 =
      Outcome.err Error.AlreadyInitialized ∧
     (initContract (Env.mk [Addr.mk 2] 0) (Addr.mk 2)
        (initContract (Env.mk [Addr.mk 1] 0) (Addr.mk 1)
          (ContractState.mk none none [] [])).2.1).2.1 =
      (initContract (Env.mk [Addr.mk 1] 0) (Addr.mk 1)
        (ContractState.mk none none [] [])).2.1) :=
  ⟨by decide, by decide,
   C4_second_init_rejected.2 _ _ _ _ _ (by decide) (by decide)⟩

/-- C5: `transfer_admin` fails `NotInitialized` with no admin stored;
with an admin stored it aborts on a missing proof from the current admin,
aborts on a missing proof from the new admin (both leaving the state
unchanged), and with both proofs overwrites the stored admin. -/
theorem C5_transfer_admin_two_party :
    (∀ (env : Env) (a : Addr) (st : ContractState), st.admin = none →
      transfer_admin env a st =
        (Outcome.err Error.NotInitialized, st, [Action.readKey StorageKey.Admin])) ∧
    (∀ (env : Env) (a : Addr) (st : ContractState) (cur : Addr),
      st.admin = some cur → cur ∉ env.auths →
      (transfer_admin env a st).1 = Outcome.authFail cur ∧
      (transfer_admin env a st).2.1 = st) ∧
    (∀ (env : Env) (a : Addr) (st : ContractState) (cur : Addr),
      st.admin = some cur → cur ∈ env.auths → a ∉ env.auths →
      (transfer_admin env a st).1 = Outcome.authFail a ∧
      (transfer_admin env a st).2.1 = st) ∧
    (∀ (env : Env) (a : Addr) (st : ContractState) (cur : Addr),
      st.admin = some cur → cur ∈ env.auths → a ∈ env.auths →
      (transfer_admin env a st).1 = Outcome.ok () ∧
      (transfer_admin env a st).2.1 = { st with admin := some a }) := by
  refine ⟨?_, ?_, ?_, ?_⟩
  · intro env a st h0
    simp [transfer_admin, h0]
  · intro env a st cur hcur hc
    simp [transfer_admin, hcur, hc]
  · intro env a st cur hcur hc ha
    simp [transfer_admin, hcur, hc, ha]
  · intro env a st cur hcur hc ha
    simp [transfer_admin, hcur, hc, ha]

/-- Witness for C5: concrete one-proof failures and a two-proof success. -/
theorem C5_transfer_admin_two_party_witness :
    ((transfer_admin (Env.mk [Addr.mk 2] 0) (Addr.mk 2)
        (ContractState.mk (some (Addr.mk 1)) none [] [])).1 =
       Outcome.authFail (Addr.mk 1) ∧
     (transfer_admin (Env.mk [Addr.mk 2] 0) (Addr.mk 2)
        (ContractState.mk (some (Addr.mk 1)) none [] [])).2.1 =
       ContractState.mk (some (Addr.mk 1)) none [] []) ∧
    ((transfer_admin (Env.mk [Addr.mk 1] 0) (Addr.mk 2)
        (ContractState.mk (some (Addr.mk 1)) none [] [])).1 =
       Outcome.authFail (Addr.mk 2) ∧
     (transfer_admin (Env.mk [Addr.mk 1] 0) (Addr.mk 2)
        (ContractState.mk (some (Addr.mk 1)) none [] [])).2.1 =
       ContractState.mk (some (Addr.mk 1)) none [] []) ∧
    ((transfer_admin (Env.mk [Addr.mk 1, Addr.mk 2] 0) (Addr.mk 2)
        (ContractState.mk (some (Addr.mk 1)) none [] [])).1 =
       Outcome.ok () ∧
     (transfer_admin (Env.mk [Addr.mk 1, Addr.mk 2] 0) (Addr.mk 2)
        (ContractState.mk (some (Addr.mk 1)) none [] [])).2.1 =
       { ContractState.mk (some (Addr.mk 1)) none [] [] with
           admin := some (Addr.mk 2) }) :=
  ⟨C5_transfer_admin_two_party.2.1 _ _ _ (Addr.mk 1) (by decide) (by decide),
   C5_transfer_admin_two_party.2.2.1 _ _ _ (Addr.mk 1)
     (by decide) (by decide) (by decide),
   C5_transfer_admin_two_party.2.2.2 _ _ _ (Addr.mk 1)
     (by decide) (by decide) (by decide)⟩

/-- C7: with a valid proof, `set_profile` fails `InvalidNickname` with no
mutation exactly when the nickname length is below 3 or above 32; in the
inclusive range it succeeds and fully overwrites the profile with the new
nickname and the current ledger sequence as `registered_at`. -/
theorem C7_set_profile_validation
    (env : Env) (user : Addr) (nickname : List Nat) (st : ContractState)
    (hauth : user ∈ env.auths) :
    ((nickname.length < 3 ∨ nickname.length > 32) →
       set_profile env user nickname st =
         (Outcome.err Error.InvalidNickname, st, [Action.auth user])) ∧
    (3 ≤ nickname.length → nickname.length ≤ 32 →
       (set_profile env user nickname st).1 = Outcome.ok () ∧
       (set_profile env user nickname st).2.1 =
         { st with profiles := assocSet st.profiles user ⟨nickname, env.ledgerSeq⟩ } ∧
       assocGet (set_profile env user nickname st).2.1.profiles user =
         some ⟨nickname, env.ledgerSeq⟩) := by
  constructor
  · intro hbad
    simp [set_profile, hauth, hbad]
  · intro h3 h32
    have hcond : ¬(nickname.length < 3 ∨ nickname.length > 32) := by omega
    simp [set_profile, hauth, hcond, assocGet_assocSet_self]

/-- Witness for C7: lengths 2 and 33 fail, lengths 3 and 32 succeed, at
concrete inputs. -/
theorem C7_set_profile_validation_witness :
    (set_profile (Env.mk [Addr.mk 1] 41) (Addr.mk 1) [10, 11]
        (ContractState.mk none none [] []) =
       (Outcome.err Error.InvalidNickname, ContractState.mk none none [] [],
        [Action.auth (Addr.mk 1)])) ∧
    (set_profile (Env.mk [Addr.mk 1] 41) (Addr.mk 1) (List.replicate 33 0)
        (ContractState.mk none none [] []) =
       (Outcome.err Error.InvalidNickname, ContractState.mk none none [] [],
        [Action.auth (Addr.mk 1)])) ∧
    ((set_profile (Env.mk [Addr.mk 1] 41) (Addr.mk 1) [10, 11, 12]
        (ContractState.mk none none [] [])).1 =
       Outcome.ok ()) ∧
    ((set_profile (Env.mk [Addr.mk 1] 41) (Addr.mk 1) (List.replicate 32 0)
        (ContractState.mk none none [] [])).1 =
       Outcome.ok () ∧
     assocGet (set_profile (Env.mk [Addr.mk 1] 41) (Addr.mk 1) (List.replicate 32 0)
         (ContractState.mk none none [] [])).2.1.profiles (Addr.mk 1) =
       some (UserProfile.mk (List.replicate 32 0) 41)) :=
  ⟨(C7_set_profile_validation _ _ _ _ (by decide)).1 (by decide),
   (C7_set_profile_validation _ _ _ _ (by decide)).1 (by decide),
   ((C7_set_profile_validation _ _ _ _ (by decide)).2 (by decide) (by decide)).1,
   ⟨((C7_set_profile_validation _ _ _ _ (by decide)).2 (by decide) (by decide)).1,
    ((C7_set_profile_validation _ _ _ _ (by decide)).2 (by decide) (by decide)).2.2⟩⟩

/-- C6: presence records are write-once and always true: a flag stored as
`true` survives every mutating operation unchanged (the read-only
operations return no state at all), and a second `register` for the same
(session hash, user) pair fails with `AlreadyRegistered` leaving the
state — the flag included — untouched. -/
theorem C6_presence_write_once (g : Hash) (u : Addr) :
    (∀ (env : Env) (a : Addr) (st : ContractState),
       assocGet st.presence (g, u) = some true →
       assocGet (initContract env a st).2.1.presence (g, u) = some true) ∧
    (∀ (env : Env) (h : Hash) (st : ContractState),
       assocGet st.presence (g, u) = some true →
       assocGet (set_hash env h st).2.1.presence (g, u) = some true) ∧
    (∀ (env : Env) (a : Addr) (st : ContractState),
       assocGet st.presence (g, u) = some true →
       assocGet (transfer_admin env a st).2.1.presence (g, u) = some true) ∧
    (∀ (env : Env) (u' : Addr) (n : List Nat) (st : ContractState),
       assocGet st.presence (g, u) = some true →
       assocGet (set_profile env u' n st).2.1.presence (g, u) = some true) ∧
    (∀ (env : Env) (u' : Addr) (s : Hash) (st : ContractState),
       assocGet st.presence (g, u) = some true →
       assocGet (register env u' s st).2.1.presence (g, u) = some true) ∧
    (∀ (env : Env) (st : ContractState),
       u ∈ env.auths → st.activeHash = some g →
       assocGet st.presence (g, u) = some true →
       (register env u g st).1 = Outcome.err Error.AlreadyRegistered ∧
       (register env u g st).2.1 = st) := by
  refine ⟨?_, ?_, ?_, ?_, ?_, ?_⟩
  · intro env a st hp
    unfold initContract
    split
    · exact hp
    · split
      · exact hp
      · exact hp
  · intro env h st hp
    unfold set_hash
    split
    · exact hp
    · split
      · exact hp
      · exact hp
  · intro env a st hp
    unfold transfer_admin
    split
    · exact hp
    · split
      · split
        · exact hp
        · exact hp
      · exact hp
  · intro env u' n st hp
    unfold set_profile
    split
    · split
      · exact hp
      · exact hp
    · exact hp
  · intro env u' s st hp
    unfold register
    split
    · split
      · exact hp
      · split
        · exact hp
        · split
          · exact hp
          · next hnone =>
              split
              · show assocGet (assocSet st.presence _ true) (g, u) = some true
                rw [assocGet_assocSet_ne]
                · exact hp
                · intro he
                  rw [he, hp] at hnone
                  simp at hnone
              · show assocGet (assocSet st.presence _ true) (g, u) = some true
                rw [assocGet_assocSet_ne]
                · exact hp
                · intro he
                  rw [he, hp] at hnone
                  simp at hnone
    · exact hp
  · intro env st hmem hact hp
    simp [register, hmem, hact, hp]

/-- Witness for C6: a concrete repeated registration. -/
theorem C6_presence_write_once_witness :
    Addr.mk 1 ∈ (Env.mk [Addr.mk 1] 0).auths ∧
    (ContractState.mk none (some (Hash.mk 7))
        [((Hash.mk 7, Addr.mk 1), true)] []).activeHash = some (Hash.mk 7) ∧
    assocGet (ContractState.mk none (some (Hash.mk 7))
        [((Hash.mk 7, Addr.mk 1), true)] []).presence
      (Hash.mk 7, Addr.mk 1) = some true ∧
    ((register (Env.mk [Addr.mk 1] 0) (Addr.mk 1) (Hash.mk 7)
        (ContractState.mk none (some (Hash.mk 7))
          [((Hash.mk 7, Addr.mk 1), true)] [])).1 =
       Outcome.err Error.AlreadyRegistered ∧
     (register (Env.mk [Addr.mk 1] 0) (Addr.mk 1) (Hash.mk 7)
        (ContractState.mk none (some (Hash.mk 7))
          [((Hash.mk 7, Addr.mk 1), true)] [])).2.1 =
       ContractState.mk none (some (Hash.mk 7))
         [((Hash.mk 7, Addr.mk 1), true)] []) :=
  ⟨by decide, by decide, by decide,
   (C6_presence_write_once (Hash.mk 7) (Addr.mk 1)).2.2.2.2.2 _ _
     (by decide) (by decide) (by decide)⟩

/-- Auxiliary: the results of the `check_batch` loop are the presence
flags of the input users, in order, defaulting to `false`. -/
theorem check_batch_loop_fst (st : ContractState) (g : Hash) (users : List Addr) :
    (check_batch_loop st g users).1 =
      users.map (fun u => (assocGet st.presence (g, u)).getD false) := by
  induction users with
  | nil => rfl
  | cons u rest ih => simp [check_batch_loop, ih]

/-- C3: `check_batch` returns the empty list when no active session
exists, and otherwise maps each input user, in order and with repeated
users resolved independently, to its presence flag under the current
session hash (defaulting to `false`); in particular the output has the
input's length. -/
theorem C3_check_batch_map (st : ContractState) (users : List Addr) :
    (check_batch st users).1 =
      (match st.activeHash with
       | none => []
       | some g => users.map (fun u => (assocGet st.presence (g, u)).getD false)) := by
  cases hact : st.activeHash with
  | none => simp [check_batch, get_session, hact]
  | some g => simp [check_batch, get_session, hact, check_batch_loop_fst]

/-- Auxiliary: every TTL extension the `check_batch` loop requests uses
the standard threshold and the 30-day bump. -/
theorem check_batch_loop_ttl (st : ContractState) (g : Hash) (users : List Addr) :
    ((check_batch_loop st g users).2).all ttlOk = true := by
  induction users with
  | nil => rfl
  | cons u rest ih =>
    cases hp : (assocGet st.presence (g, u)).getD false
    · simp [check_batch_loop, hp, List.all_append, ih, ttlOk]
    · simp [check_batch_loop, hp, List.all_append, ih, ttlOk]

/-- C9: the extended profile horizon is exactly three times the standard
horizon, and every TTL extension request any entry point issues carries
the fixed threshold, with the 90-day horizon exactly on user-profile keys
and the 30-day horizon on the admin record, the active-session record and
presence records. -/
theorem C9_ttl_policy :
    TTL_BUMP_90D = 3 * TTL_BUMP_30D ∧
    (∀ (env : Env) (a : Addr) (st : ContractState),
       ((initContract env a st).2.2).all ttlOk = true) ∧
    (∀ (env : Env) (h : Hash) (st : ContractState),
       ((set_hash env h st).2.2).all ttlOk = true) ∧
    (∀ (env : Env) (u : Addr) (s : Hash) (st : ContractState),
       ((register env u s st).2.2).all ttlOk = true) ∧
    (∀ (env : Env) (a : Addr) (st : ContractState),
       ((transfer_admin env a st).2.2).all ttlOk = true) ∧
    (∀ (env : Env) (u : Addr) (n : List Nat) (st : ContractState),
       ((set_profile env u n st).2.2).all ttlOk = true) ∧
    (∀ (st : ContractState) (u : Addr), ((get_profile st u).2).all ttlOk = true) ∧
    (∀ (st : ContractState) (u : Addr), ((check_presence st u).2).all ttlOk = true) ∧
    (∀ (st : ContractState), ((get_admin st).2).all ttlOk = true) ∧
    (∀ (st : ContractState), ((get_session st).2).all ttlOk = true) ∧
    (∀ (st : ContractState) (users : List Addr),
       ((check_batch st users).2).all ttlOk = true) := by
  refine ⟨by decide, ?_, ?_, ?_, ?_, ?_, ?_, ?_, ?_, ?_, ?_⟩
  · intro env a st
    unfold initContract
    split
    · rfl
    · split <;> rfl
  · intro env h st
    unfold set_hash
    split
    · rfl
    · split <;> rfl
  · intro env u s st
    unfold register
    split
    · split
      · rfl
      · split
        · rfl
        · split
          · rfl
          · split <;> rfl
    · rfl
  · intro env a st
    unfold transfer_admin
    split
    · rfl
    · split
      · split <;> rfl
      · rfl
  · intro env u n st
    unfold set_profile
    split
    · split <;> rfl
    · rfl
  · intro st u
    unfold get_profile
    split <;> rfl
  · intro st u
    unfold check_presence
    split
    · rfl
    · dsimp only
      split <;> rfl
  · intro st
    unfold get_admin
    split <;> rfl
  · intro st
    unfold get_session
    split <;> rfl
  · intro st users
    unfold check_batch
    split
    · next heq =>
        have : (get_session st).2.all ttlOk = true := by
          unfold get_session
          split <;> rfl
        rw [heq] at this
        exact this
    · next heq =>
        have h1 : (get_session st).2.all ttlOk = true := by
          unfold get_session
          split <;> rfl
        rw [heq] at h1
        simp only [List.all_append, Bool.and_eq_true]
        exact ⟨h1, check_batch_loop_ttl st _ users⟩

/-- C2 counterexample: `initialize` performs the `has(Admin)` storage read
before `require_auth`, so a call whose proof fails has already read stored
state — its trace is the admin read followed by the failed auth check. -/
theorem C2_auth_before_state_access_counterexample :
    (initContract (Env.mk [] 0) (Addr.mk 1) (ContractState.mk none none [] [])).1 =
      Outcome.authFail (Addr.mk 1) ∧
    (initContract (Env.mk [] 0) (Addr.mk 1) (ContractState.mk none none [] [])).2.2 =
      [Action.readKey StorageKey.Admin, Action.auth (Addr.mk 1)] := by
  decide

/-- C2 amended: in `register` and `set_profile` the authorization check is
the very first action, before any state access; in `initialize`,
`set_hash` and `transfer_admin` a read of the admin record precedes the
check, but no state write ever precedes it in any operation, and a call
that aborts on a failing proof leaves the state unchanged. -/
theorem C2_auth_before_state_write :
    (∀ (env : Env) (a : Addr) (st : ContractState),
       noWriteBeforeAuth ((initContract env a st).2.2) = true) ∧
    (∀ (env : Env) (h : Hash) (st : ContractState),
       noWriteBeforeAuth ((set_hash env h st).2.2) = true) ∧
    (∀ (env : Env) (a : Addr) (st : ContractState),
       noWriteBeforeAuth ((transfer_admin env a st).2.2) = true) ∧
    (∀ (env : Env) (u : Addr) (s : Hash) (st : ContractState),
       authIsFirst ((register env u s st).2.2) = true) ∧
    (∀ (env : Env) (u : Addr) (n : List Nat) (st : ContractState),
       authIsFirst ((set_profile env u n st).2.2) = true) ∧
    (∀ (env : Env) (a : Addr) (st : ContractState) (x : Addr),
       (initContract env a st).1 = Outcome.authFail x →
       (initContract env a st).2.1 = st) ∧
    (∀ (env : Env) (h : Hash) (st : ContractState) (x : Addr),
       (set_hash env h st).1 = Outcome.authFail x →
       (set_hash env h st).2.1 = st) ∧
    (∀ (env : Env) (a : Addr) (st : ContractState) (x : Addr),
       (transfer_admin env a st).1 = Outcome.authFail x →
       (transfer_admin env a st).2.1 = st) ∧
    (∀ (env : Env) (u : Addr) (s : Hash) (st : ContractState) (x : Addr),
       (register env u s st).1 = Outcome.authFail x →
       (register env u s st).2.1 = st) ∧
    (∀ (env : Env) (u : Addr) (n : List Nat) (st : ContractState) (x : Addr),
       (set_profile env u n st).1 = Outcome.authFail x →
       (set_profile env u n st).2.1 = st) := by
  refine ⟨?_, ?_, ?_, ?_, ?_, ?_, ?_, ?_, ?_, ?_⟩
  · intro env a st
    unfold initContract
    split
    · rfl
    · split <;> rfl
  · intro env h st
    unfold set_hash
    split
    · rfl
    · split <;> rfl
  · intro env a st
    unfold transfer_admin
    split
    · rfl
    · split
      · split <;> rfl
      · rfl
  · intro env u s st
    unfold register
    split
    · split
      · rfl
      · split
        · rfl
        · split
          · rfl
          · split <;> rfl
    · rfl
  · intro env u n st
    unfold set_profile
    split
    · split <;> rfl
    · rfl
  · intro env a st x
    unfold initContract
    split
    · intro hx
      simp_all
    · split <;> intro hx <;> simp_all
  · intro env h st x
    unfold set_hash
    split
    · intro hx
      simp_all
    · split <;> intro hx <;> simp_all
  · intro env a st x
    unfold transfer_admin
    split
    · intro hx
      simp_all
    · split
      · split <;> intro hx <;> simp_all
      · intro hx
        simp_all
  · intro env u s st x
    unfold register
    split
    · split
      · intro hx
        simp_all
      · split
        · intro hx
          simp_all
        · split
          · intro hx
            simp_all
          · split <;> intro hx <;> simp_all
    · intro hx
      simp_all
  · intro env u n st x
    unfold set_profile
    split
    · split <;> intro hx <;> simp_all
    · intro hx
      simp_all

/-- Witness for C2 amended: a failing-proof `set_profile` call leaves a
concrete state unchanged. -/
theorem C2_auth_before_state_write_witness :
    (set_profile (Env.mk [] 0) (Addr.mk 1) [10, 11, 12]
       (ContractState.mk none none [] [])).1 = Outcome.authFail (Addr.mk 1) ∧
    (set_profile (Env.mk [] 0) (Addr.mk 1) [10, 11, 12]
       (ContractState.mk none none [] [])).2.1 =
      ContractState.mk none none [] [] :=
  ⟨by decide,
   C2_auth_before_state_write.2.2.2.2.2.2.2.2.2 _ _ _ _ (Addr.mk 1) (by decide)⟩

/-- C8: rotating the session hash orphans prior presence records: after
`initialize(x)`, `set_hash(g1)`, a successful `register(u1, g1)` and
`set_hash(g2)` with `g1 ≠ g2`, `check_presence u1` returns `false`,
`register(u1, g2)` succeeds independently, and the record keyed by
`(g1, u1)` is still in storage. -/
theorem C8_new_session_orphans_presence
    (env : Env) (x u1 : Addr) (g1 g2 : Hash)
    (hx : x ∈ env.auths) (hu : u1 ∈ env.auths) (hne : g1 ≠ g2) :
    (register env u1 g1
       (set_hash env g1
         (initContract env x (ContractState.mk none none [] [])).2.1).2.1).1 =
      Outcome.ok () ∧
    (check_presence
       (set_hash env g2
         (register env u1 g1
           (set_hash env g1
             (initContract env x (ContractState.mk none none [] [])).2.1).2.1).2.1).2.1
       u1).1 = false ∧
    (register env u1 g2
       (set_hash env g2
         (register env u1 g1
           (set_hash env g1
             (initContract env x (ContractState.mk none none [] [])).2.1).2.1).2.1).2.1).1 =
      Outcome.ok () ∧
    assocGet
      (register env u1 g2
         (set_hash env g2
           (register env u1 g1
             (set_hash env g1
               (initContract env x (ContractState.mk none none [] [])).2.1).2.1).2.1).2.1).2.1.presence
      (g1, u1) = some true := by
  have h1 : (initContract env x (ContractState.mk none none [] [])).2.1 =
      ContractState.mk (some x) none [] [] := by
    simp [initContract, hx]
  have h2 : (set_hash env g1 (ContractState.mk (some x) none [] [])).2.1 =
      ContractState.mk (some x) (some g1) [] [] := by
    simp [set_hash, hx]
  have h3 : (register env u1 g1 (ContractState.mk (some x) (some g1) [] [])).2.1 =
      ContractState.mk (some x) (some g1) [((g1, u1), true)] [] := by
    simp [register, hu, assocGet, assocSet]
  have h3o : (register env u1 g1 (ContractState.mk (some x) (some g1) [] [])).1 =
      Outcome.ok () := by
    simp [register, hu, assocGet]
  have h4 : (set_hash env g2
      (ContractState.mk (some x) (some g1) [((g1, u1), true)] [])).2.1 =
      ContractState.mk (some x) (some g2) [((g1, u1), true)] [] := by
    simp [set_hash, hx]
  have h5 : (check_presence
      (ContractState.mk (some x) (some g2) [((g1, u1), true)] []) u1).1 = false := by
    simp [check_presence, assocGet, Prod.mk.injEq, hne]
  have h6o : (register env u1 g2
      (ContractState.mk (some x) (some g2) [((g1, u1), true)] [])).1 =
      Outcome.ok () := by
    simp [register, hu, assocGet, Prod.mk.injEq, hne]
  have h6 : assocGet (register env u1 g2
      (ContractState.mk (some x) (some g2) [((g1, u1), true)] [])).2.1.presence
      (g1, u1) = some true := by
    simp [register, hu, assocGet, assocSet, Prod.mk.injEq, hne]
  rw [h1, h2]
  refine ⟨h3o, ?_, ?_, ?_⟩
  · rw [h3, h4]
    exact h5
  · rw [h3, h4]
    exact h6o
  · rw [h3, h4]
    exact h6

/-- Witness for C8 at concrete addresses and hashes. -/
theorem C8_new_session_orphans_presence_witness :
    Addr.mk 1 ∈ (Env.mk [Addr.mk 1, Addr.mk 2] 0).auths ∧
    Addr.mk 2 ∈ (Env.mk [Addr.mk 1, Addr.mk 2] 0).auths ∧
    Hash.mk 10 ≠ Hash.mk 20 ∧
    ((register (Env.mk [Addr.mk 1, Addr.mk 2] 0) (Addr.mk 2) (Hash.mk 10)
       (set_hash (Env.mk [Addr.mk 1, Addr.mk 2] 0) (Hash.mk 10)
         (initContract (Env.mk [Addr.mk 1, Addr.mk 2] 0) (Addr.mk 1)
           (ContractState.mk none none [] [])).2.1).2.1).1 =
      Outcome.ok () ∧
    (check_presence
       (set_hash (Env.mk [Addr.mk 1, Addr.mk 2] 0) (Hash.mk 20)
         (register (Env.mk [Addr.mk 1, Addr.mk 2] 0) (Addr.mk 2) (Hash.mk 10)
           (set_hash (Env.mk [Addr.mk 1, Addr.mk 2] 0) (Hash.mk 10)
             (initContract (Env.mk [Addr.mk 1, Addr.mk 2] 0) (Addr.mk 1)
               (ContractState.mk none none [] [])).2.1).2.1).2.1).2.1
       (Addr.mk 2)).1 = false ∧
    (register (Env.mk [Addr.mk 1, Addr.mk 2] 0) (Addr.mk 2) (Hash.mk 20)
       (set_hash (Env.mk [Addr.mk 1, Addr.mk 2] 0) (Hash.mk 20)
         (register (Env.mk [Addr.mk 1, Addr.mk 2] 0) (Addr.mk 2) (Hash.mk 10)
           (set_hash (Env.mk [Addr.mk 1, Addr.mk 2] 0) (Hash.mk 10)
             (initContract (Env.mk [Addr.mk 1, Addr.mk 2] 0) (Addr.mk 1)
               (ContractState.mk none none [] [])).2.1).2.1).2.1).2.1).1 =
      Outcome.ok () ∧
    assocGet
      (register (Env.mk [Addr.mk 1, Addr.mk 2] 0) (Addr.mk 2) (Hash.mk 20)
         (set_hash (Env.mk [Addr.mk 1, Addr.mk 2] 0) (Hash.mk 20)
           (register (Env.mk [Addr.mk 1, Addr.mk 2] 0) (Addr.mk 2) (Hash.mk 10)
             (set_hash (Env.mk [Addr.mk 1, Addr.mk 2] 0) (Hash.mk 10)
               (initContract (Env.mk [Addr.mk 1, Addr.mk 2] 0) (Addr.mk 1)
                 (ContractState.mk none none [] [])).2.1).2.1).2.1).2.1).2.1.presence
      (Hash.mk 10, Addr.mk 2) = some true) :=
  ⟨by decide, by decide, by decide,
   C8_new_session_orphans_presence _ _ _ _ _ (by decide) (by decide) (by decide)⟩

end AttendanceContract
